import Mathlib

/-!
Verification development for the DREKAVAC audio plugin
(src/PluginProcessor.cpp together with the DSP classes of
src/Source/PluginProcessor.h, the header variant the cpp file actually
uses: it is the one providing Distortion.setCutoffSliderValue and the
SimpleCompressor member that PluginProcessor.cpp calls).

Floating point arithmetic of the source is embedded as exact real
arithmetic; the transcendental library calls (std tanh, sin, exp, log,
pow, sqrt) become the corresponding Mathlib functions on the reals.
Each DSP class of the header becomes a structure holding its mutable
members, and each member function becomes a Lean function from the old
state (and the arguments) to the result and the new state.
-/

noncomputable section

namespace DREKAVAC

/-- Embedding of juce jlimit: returns lo when v < lo, hi when hi < v, else v. -/
def jlimit (lo hi v : ℝ) : ℝ := if v < lo then lo else if hi < v then hi else v

/-- Embedding of juce jmap for a 0..1 position t between a and b. -/
def jmap (t a b : ℝ) : ℝ := a + t * (b - a)

/-- Coefficients of one second order IIR section of the juce dsp IIR filter,
already normalised by a0. Models juce dsp IIR Coefficients. -/
structure BiquadCoeffs where
  b0 : ℝ
  b1 : ℝ
  b2 : ℝ
  a1 : ℝ
  a2 : ℝ

/-- The two delay elements of a juce dsp IIR filter
(transposed direct form II state). -/
structure BiquadState where
  v1 : ℝ
  v2 : ℝ

/-- State after juce filter reset: both delay elements zero. -/
def biquadReset : BiquadState := ⟨0, 0⟩

/-- Embedding of juce dsp IIR Filter processSample (transposed direct form II):
out = b0 x + s1; s1 becomes b1 x - a1 out + s2; s2 becomes b2 x - a2 out. -/
def biquadProcessSample (c : BiquadCoeffs) (st : BiquadState) (x : ℝ) :
    ℝ × BiquadState :=
  let y := c.b0 * x + st.v1
  (y, ⟨c.b1 * x - c.a1 * y + st.v2, c.b2 * x - c.a2 * y⟩)

/-- Embedding of the juce library function IIR Coefficients makeLowPass
(bilinear transform low pass, normalised). The juce library is a dependency
of the repository, not part of it; no claim below depends on the concrete
coefficient values, only on which arguments the repository passes in. -/
def makeLowPass (fs freq q : ℝ) : BiquadCoeffs :=
  let n := 1 / Real.tan (Real.pi * freq / fs)
  let nSq := n * n
  let invQ := 1 / q
  let c1 := 1 / (1 + invQ * n + nSq)
  ⟨c1, c1 * 2, c1, c1 * 2 * (1 - nSq), c1 * (1 - invQ * n + nSq)⟩

/-- Embedding of the juce library function IIR Coefficients makeLowShelf
(RBJ style shelf, normalised by a0). As with makeLowPass, no claim below
depends on the concrete coefficient values. -/
def makeLowShelf (fs freq q gain : ℝ) : BiquadCoeffs :=
  let A := max 0 gain
  let aminus1 := A - 1
  let aplus1 := A + 1
  let omega := 2 * Real.pi * max freq 2 / fs
  let coso := Real.cos omega
  let beta := Real.sin omega * Real.sqrt A / q
  let a0 := aplus1 + aminus1 * coso + beta
  ⟨A * (aplus1 - aminus1 * coso + beta) / a0,
   A * 2 * (aminus1 - aplus1 * coso) / a0,
   A * (aplus1 - aminus1 * coso - beta) / a0,
   (-2 * (aminus1 + aplus1 * coso)) / a0,
   (aplus1 + aminus1 * coso - beta) / a0⟩

/-- Embedding of the juce library function IIR Coefficients makeHighShelf
(RBJ style shelf, normalised by a0). -/
def makeHighShelf (fs freq q gain : ℝ) : BiquadCoeffs :=
  let A := max 0 gain
  let aminus1 := A - 1
  let aplus1 := A + 1
  let omega := 2 * Real.pi * max freq 2 / fs
  let coso := Real.cos omega
  let beta := Real.sin omega * Real.sqrt A / q
  let a0 := aplus1 - aminus1 * coso + beta
  ⟨A * (aplus1 + aminus1 * coso + beta) / a0,
   (-A * 2) * (aminus1 + aplus1 * coso) / a0,
   A * (aplus1 + aminus1 * coso - beta) / a0,
   (2 * (aminus1 - aplus1 * coso)) / a0,
   (aplus1 - aminus1 * coso - beta) / a0⟩

/-! ## ToneProcessor (src/Source/PluginProcessor.h lines 11 to 73) -/

/-- Mutable members of class ToneProcessor: sample rate, the balance
coefficient, the drive modulated pivot and Q, the two shelving filters
(coefficients plus delay state each). The const members pivotFreq = 1000
and q = 0.707 appear as literals in the member functions. -/
structure ToneProcessor where
  fs : ℝ
  balance : ℝ
  modulatedPivot : ℝ
  modulatedQ : ℝ
  lowCoeffs : BiquadCoeffs
  highCoeffs : BiquadCoeffs
  lowSt : BiquadState
  highSt : BiquadState

/-- ToneProcessor updateCoefficients: recompute both shelves from the
current balance, modulated pivot and modulated Q. -/
def ToneProcessor.updateCoefficients (st : ToneProcessor) : ToneProcessor :=
  { st with
    lowCoeffs := makeLowShelf st.fs st.modulatedPivot st.modulatedQ
      (1 + (1 - st.balance) * 1.5)
    highCoeffs := makeHighShelf st.fs st.modulatedPivot st.modulatedQ
      (1 + st.balance * 1.5) }

/-- ToneProcessor prepare: store the sample rate, recompute the
coefficients, reset both filters. -/
def ToneProcessor.prepare (st : ToneProcessor) (sampleRate : ℝ) : ToneProcessor :=
  { ToneProcessor.updateCoefficients { st with fs := sampleRate } with
    lowSt := biquadReset
    highSt := biquadReset }

/-- ToneProcessor setParameters: balance is the tone slider clamped to
the unit interval, pivot and Q are modulated by the drive slider, then
the coefficients are recomputed. -/
def ToneProcessor.setParameters (st : ToneProcessor) (toneSlider driveSlider : ℝ) :
    ToneProcessor :=
  ToneProcessor.updateCoefficients
    { st with
      balance := jlimit 0 1 toneSlider
      modulatedPivot := 1000 + driveSlider * 100
      modulatedQ := 0.707 + driveSlider * 0.05 }

/-- ToneProcessor processSample: run both shelves on the input and blend
the two outputs by the balance via jmap. -/
def ToneProcessor.processSample (st : ToneProcessor) (input : ℝ) :
    ℝ × ToneProcessor :=
  let low := biquadProcessSample st.lowCoeffs st.lowSt input
  let high := biquadProcessSample st.highCoeffs st.highSt input
  (jmap st.balance low.1 high.1, { st with lowSt := low.2, highSt := high.2 })

/-! ## Overdrive (src/Source/PluginProcessor.h lines 75 to 104) -/

/-- Mutable members of class Overdrive. -/
structure Overdrive where
  drive : ℝ
  tone : ℝ
  prevY : ℝ

/-- Overdrive setDrive stores the value without clamping it. -/
def Overdrive.setDrive (st : Overdrive) (d : ℝ) : Overdrive := { st with drive := d }

/-- Overdrive setTone clamps the value to the unit interval. -/
def Overdrive.setTone (st : Overdrive) (t : ℝ) : Overdrive :=
  { st with tone := jlimit 0 1 t }

/-- Overdrive processSample: gain by 1 + drive squared, tanh soft clip,
then a one pole low pass whose cutoff sweeps 200 to 8200 Hz with tone. -/
def Overdrive.processSample (st : Overdrive) (input sampleRate : ℝ) :
    ℝ × Overdrive :=
  let x := input * (1 + st.drive ^ (2 : ℝ))
  let y := Real.tanh x
  let cutoff := 200 + st.tone * 8000
  let RC := 1 / (2 * Real.pi * cutoff)
  let dt := 1 / sampleRate
  let alpha := dt / (RC + dt)
  let newY := st.prevY + alpha * (y - st.prevY)
  (newY, { st with prevY := newY })

/-! ## Distortion (src/Source/PluginProcessor.h lines 106 to 176) -/

/-- The logarithmic cutoff mapping used by Distortion setCutoffSliderValue
and by the cutoff parameter display lambda in PluginProcessor.cpp:
hz = minHz times (maxHz over minHz) to the power (norm to the power
exponent), with minHz = 100, maxHz = 8000, exponent = 0.7. -/
def cutoffHzOfNorm (v : ℝ) : ℝ :=
  100 * ((8000 : ℝ) / 100) ^ (v ^ (0.7 : ℝ))

/-- The inverse mapping written in the cutoff parameter text lambda in
PluginProcessor.cpp lines 34 to 40, read as exact real arithmetic:
norm = (log(hz over minHz) over log(maxHz over minHz)) to the power
(1 over exponent), then jlimit to the unit interval. -/
def cutoffNormOfHz (hz : ℝ) : ℝ :=
  jlimit 0 1 ((Real.log (hz / 100) / Real.log ((8000 : ℝ) / 100)) ^ ((1 : ℝ) / 0.7))

/-- Mutable members of class Distortion: pre gain, the raw slider value,
the mapped cutoff, the sample rate, the post low pass delay element and
the two cascaded second order low pass sections sharing one coefficient
set (the source keeps an array of two filters all assigned the same
coefficients object). -/
structure Distortion where
  preGain : ℝ
  sliderValue : ℝ
  cutoff : ℝ
  fs : ℝ
  postPrev : ℝ
  coeffs : BiquadCoeffs
  f1 : BiquadState
  f2 : BiquadState

/-- Distortion updateFilter: shared low pass coefficients at the current
cutoff with Q = 0.707. -/
def Distortion.updateFilter (st : Distortion) : Distortion :=
  { st with coeffs := makeLowPass st.fs st.cutoff 0.707 }

/-- Distortion setPreGain stores the value without clamping it. -/
def Distortion.setPreGain (st : Distortion) (g : ℝ) : Distortion :=
  { st with preGain := g }

/-- Distortion setCutoffSliderValue: clamp the slider to the unit
interval, apply the logarithmic mapping, recompute the filter. -/
def Distortion.setCutoffSliderValue (st : Distortion) (value : ℝ) : Distortion :=
  let s := jlimit 0 1 value
  Distortion.updateFilter { st with sliderValue := s, cutoff := cutoffHzOfNorm s }

/-- Distortion prepare: store the sample rate, reset the two filter
sections, recompute the coefficients. The postPrev delay element is not
touched. -/
def Distortion.prepare (st : Distortion) (sampleRate : ℝ) : Distortion :=
  Distortion.updateFilter
    { st with fs := sampleRate, f1 := biquadReset, f2 := biquadReset }

/-- Distortion processSample: tanh pre clip at preGain, the two cascaded
second order sections, a fixed one pole post low pass at 10000 Hz with
alpha = exp(-2 pi 10000 / fs), and a final tanh soft clip. -/
def Distortion.processSample (st : Distortion) (input : ℝ) : ℝ × Distortion :=
  let y0 := Real.tanh (input * st.preGain)
  let r1 := biquadProcessSample st.coeffs st.f1 y0
  let r2 := biquadProcessSample st.coeffs st.f2 r1.1
  let alpha := Real.exp (-2 * Real.pi * 10000 / st.fs)
  let y3 := st.postPrev + (1 - alpha) * (r2.1 - st.postPrev)
  (Real.tanh y3, { st with postPrev := y3, f1 := r1.2, f2 := r2.2 })

/-! ## Wavefolder (src/Source/PluginProcessor.h lines 180 to 200) -/

/-- Mutable member of class Wavefolder. -/
structure Wavefolder where
  depth : ℝ

/-- C float pow at the fixed non integer exponent 1.5 used by Wavefolder
setDepth: none models the NaN a negative base produces on IEEE floats. -/
def cPowThreeHalves (d : ℝ) : Option ℝ :=
  if 0 ≤ d then some (d ^ (1.5 : ℝ)) else none

/-- The value Wavefolder setDepth stores, with C float semantics:
jlimit 0 1 (pow d 1.5). For a negative control value the pow is NaN
(none) and jlimit passes a NaN through because both comparisons against
it are false, so the NaN reaches the stored depth member unclamped. -/
def foldDepthStored (d : ℝ) : Option ℝ :=
  match cPowThreeHalves d with
  | none => none
  | some y => some (jlimit 0 1 y)

/-- Wavefolder setDepth: the stored depth is foldDepthStored d, the
1.5 power of the control value clamped to the unit interval. The real
valued stage state cannot carry the NaN of the negative branch
(foldDepthStored d = none); there the C depth member holds NaN and this
model stores the placeholder 0, so every statement about the negative
branch is settled against foldDepthStored itself, never against the
placeholder. -/
def Wavefolder.setDepth (st : Wavefolder) (d : ℝ) : Wavefolder :=
  ⟨(foldDepthStored d).getD 0⟩

/-- Wavefolder processSample: scale by 1 + 9 depth, sinusoidal fold,
tanh, then blend with the dry input by depth. Stateless. -/
def Wavefolder.processSample (st : Wavefolder) (input : ℝ) : ℝ :=
  let scaled := input * (1 + st.depth * 9)
  let folded := Real.tanh (Real.sin (scaled * (Real.pi / 2)))
  input * (1 - st.depth) + folded * st.depth

/-! ## SimpleCompressor (src/Source/PluginProcessor.h lines 202 to 272) -/

/-- Mutable members of class SimpleCompressor that change after
construction. The constructor constants threshold = -3 dB, reduction
factor 2, knee 2 dB, attack 0.005 s and release 0.05 s appear as
literals in the member functions. -/
structure SimpleCompressor where
  sampleRate : ℝ
  envelope : ℝ
  attackCoeff : ℝ
  releaseCoeff : ℝ

/-- SimpleCompressor prepare: store the sample rate, zero the envelope,
recompute the attack and release coefficients. -/
def SimpleCompressor.prepare (st : SimpleCompressor) (fs : ℝ) : SimpleCompressor :=
  { sampleRate := fs
    envelope := 0
    attackCoeff := Real.exp (-1 / (0.005 * fs))
    releaseCoeff := Real.exp (-1 / (0.05 * fs)) }

/-- SimpleCompressor processSample: one pole envelope follower with
separate attack and release coefficients, soft knee gain computation in
dB around the fixed threshold, multiplicative linear gain. -/
def SimpleCompressor.processSample (st : SimpleCompressor) (input : ℝ) :
    ℝ × SimpleCompressor :=
  let level := |input|
  let env :=
    if st.envelope < level then st.attackCoeff * (st.envelope - level) + level
    else st.releaseCoeff * (st.envelope - level) + level
  let levelDb := 20 * Real.logb 10 (max env 1e-20)
  let lowerKnee := (-3 : ℝ) - 2 / 2
  let upperKnee := (-3 : ℝ) + 2 / 2
  let gainDb :=
    if upperKnee < levelDb then -3 + (levelDb - -3) / 2 - levelDb
    else if lowerKnee < levelDb then
      let t := (levelDb - lowerKnee) / 2
      let smooth := t * t * (3 - 2 * t)
      smooth * (-3 + (levelDb - -3) / 2 - levelDb)
    else 0
  let gain := (10 : ℝ) ^ (gainDb / 20)
  (input * gain, { st with envelope := env })

/-! ## The processor (PluginProcessor.cpp) -/

/-- The eight raw control values read from the parameter tree at the top
of processBlock (PluginProcessor.cpp lines 194 to 201), in their source
order: drive, tone, distortion, cutoff, fold, flavor, output, drywet. -/
structure Params where
  drive : ℝ
  tone : ℝ
  distortion : ℝ
  cutoff : ℝ
  fold : ℝ
  flavor : ℝ
  output : ℝ
  drywet : ℝ

/-- State of DREKAVACAudioProcessor: the five DSP stage members, the host
sample rate, the oversampler delay line contents (abstracted as a list of
reals, zeroed by reset), the parameter tree snapshot used for persistence
and the current preset name. -/
structure AudioProcessorState where
  overdrive : Overdrive
  dist : Distortion
  fold : Wavefolder
  toneProcessor : ToneProcessor
  simpleComp : SimpleCompressor
  sampleRate : ℝ
  oversamplerDelay : List ℝ
  paramsTree : List (String × ℝ)
  currentPresetName : String

/-- The member oversampler is constructed as juce dsp Oversampling with
factor argument 2, which the juce library interprets as two halving
stages, so getOversamplingFactor returns 2 to the power 2 = 4. -/
def oversamplingFactor : ℝ := 4

/-- Embedding of prepareToPlay (PluginProcessor.cpp lines 127 to 149):
reset and init the oversampler, prepare the tone processor and the
distortion at the host rate, push the default stage parameters, prepare
the compressor. Overdrive prevY and Distortion postPrev are not touched
by any of these calls. -/
def AudioProcessorState.prepareToPlay (st : AudioProcessorState)
    (sampleRate : ℝ) (samplesPerBlock : ℕ) : AudioProcessorState :=
  { st with
    oversamplerDelay := []
    toneProcessor := st.toneProcessor.prepare sampleRate
    dist := ((st.dist.prepare sampleRate).setPreGain 1).setCutoffSliderValue 0.5
    overdrive := (st.overdrive.setDrive 1).setTone 0.5
    fold := st.fold.setDepth 0
    simpleComp := st.simpleComp.prepare sampleRate
    sampleRate := sampleRate }

/-- The per block stage parameter update of processBlock
(PluginProcessor.cpp lines 203 to 209): the raw values drive the stage
setters; distortion is clamped below at zero, drive is passed through
unclamped. -/
def AudioProcessorState.blockUpdate (st : AudioProcessorState) (p : Params) :
    AudioProcessorState :=
  { st with
    overdrive := (st.overdrive.setDrive p.drive).setTone p.tone
    toneProcessor := st.toneProcessor.setParameters p.tone p.drive
    dist := (st.dist.setPreGain (max 0 p.distortion)).setCutoffSliderValue p.cutoff
    fold := st.fold.setDepth p.fold }

/-- The flavor cross fade of the per sample loop (PluginProcessor.cpp
lines 229 to 230): f = sin(flavor times half pi) and
parallel = od + dist (1 - f) + fold f. -/
def flavorBlend (flavor od di fo : ℝ) : ℝ :=
  let f := Real.sin (flavor * (Real.pi / 2))
  od + di * (1 - f) + fo * f

/-- One iteration of the per sample loop of processBlock
(PluginProcessor.cpp lines 220 to 242), on one sample of the oversampled
block: the input sample is scaled by the fixed preGain 0.6 before the
overdrive, both parallel branches consume the overdrive output, the tone
filter runs on the flavor blend, the dry branch of the square root
dry wet blend uses the unscaled input sample, then output gain and a
final tanh. -/
def AudioProcessorState.processOneSample (st : AudioProcessorState)
    (p : Params) (oversampledRate inputSample : ℝ) : ℝ × AudioProcessorState :=
  let scaledInput := inputSample * 0.6
  let od := st.overdrive.processSample scaledInput oversampledRate
  let di := st.dist.processSample od.1
  let fo := st.fold.processSample od.1
  let parallel := flavorBlend p.flavor od.1 di.1 fo
  let filtered := st.toneProcessor.processSample parallel
  let w := Real.sqrt p.drywet
  let mixed := inputSample * (1 - w) + filtered.1 * w
  let mixed2 := mixed * p.output
  (Real.tanh mixed2,
   { st with overdrive := od.2, dist := di.2, toneProcessor := filtered.2 })

/-- The per sample loop over a list of oversampled samples of one
channel, threading the stage state and collecting the outputs. -/
def AudioProcessorState.runSamples (p : Params) (oversampledRate : ℝ) :
    AudioProcessorState → List ℝ → List ℝ × AudioProcessorState
  | st, [] => ([], st)
  | st, x :: xs =>
    let r := st.processOneSample p oversampledRate x
    let rest := AudioProcessorState.runSamples p oversampledRate r.2 xs
    (r.1 :: rest.1, rest.2)

/-- Embedding of processBlock (PluginProcessor.cpp lines 179 to 247) on
the oversampled samples of one channel: the stage parameter update runs
once, then the per sample loop at the oversampled rate. The surrounding
processSamplesUp and processSamplesDown calls are linear resampling
filters internal to the oversampler member and touch no DSP stage. -/
def AudioProcessorState.processBlock (st : AudioProcessorState) (p : Params)
    (oversampledInput : List ℝ) : List ℝ × AudioProcessorState :=
  let st1 := st.blockUpdate p
  AudioProcessorState.runSamples p (st1.sampleRate * oversamplingFactor)
    st1 oversampledInput

/-! ## Preset persistence (PluginProcessor.cpp lines 282 to 294) -/

/-- The root identifier of the parameter tree, fixed at construction of
the AudioProcessorValueTreeState. -/
def rootTag : String := "DREKAVAC_PARAMETERS"

/-- A parsed preset XML document: its root tag, the optional presetName
attribute and the flat parameter snapshot it carries. -/
structure PresetXml where
  tag : String
  presetNameAttr : Option String
  tree : List (String × ℝ)

/-- Embedding of loadPresetFromFile: return unchanged when the file does
not exist; parse; replace the parameter state and the preset name only
when the parse succeeded and the root tag matches the parameter state
type, the preset name defaulting to Unknown when the attribute is
absent. -/
def AudioProcessorState.loadPresetFromFile (st : AudioProcessorState)
    (fileExistsAsFile : Bool) (parsed : Option PresetXml) : AudioProcessorState :=
  if fileExistsAsFile = false then st
  else
    match parsed with
    | none => st
    | some xml =>
      if xml.tag = rootTag then
        { st with
          paramsTree := xml.tree
          currentPresetName := Option.getD xml.presetNameAttr ("Unknown") }
      else st

/-! ## Spec side definitions (for the refinement claims) -/

/-- Modelled from the spec, section 4.7 as quoted by claim C1: the per
sample pipeline with the first stage consuming the raw input sample
(od = Overdrive.process(inputSample), no pre scaling), every later step
as in the spec equation list. -/
def specPipelineUnscaled (st : AudioProcessorState) (p : Params)
    (oversampledRate inputSample : ℝ) : ℝ × AudioProcessorState :=
  let od := st.overdrive.processSample inputSample oversampledRate
  let di := st.dist.processSample od.1
  let fo := st.fold.processSample od.1
  let parallel := flavorBlend p.flavor od.1 di.1 fo
  let filtered := st.toneProcessor.processSample parallel
  let w := Real.sqrt p.drywet
  let mixed := inputSample * (1 - w) + filtered.1 * w
  let mixed2 := mixed * p.output
  (Real.tanh mixed2,
   { st with overdrive := od.2, dist := di.2, toneProcessor := filtered.2 })

/-- The spec pipeline of section 4.7 amended by the fixed input pre
scaling the code applies: od = Overdrive.process(inputSample times 0.6),
while the dry branch of the dry wet blend still uses the unscaled input
sample; all other steps are the spec equations 2 to 8 unchanged. -/
def specPipelineScaled (st : AudioProcessorState) (p : Params)
    (oversampledRate inputSample : ℝ) : ℝ × AudioProcessorState :=
  let od := st.overdrive.processSample (inputSample * 0.6) oversampledRate
  let di := st.dist.processSample od.1
  let fo := st.fold.processSample od.1
  let parallel := flavorBlend p.flavor od.1 di.1 fo
  let filtered := st.toneProcessor.processSample parallel
  let w := Real.sqrt p.drywet
  let mixed := inputSample * (1 - w) + filtered.1 * w
  let mixed2 := mixed * p.output
  (Real.tanh mixed2,
   { st with overdrive := od.2, dist := di.2, toneProcessor := filtered.2 })

/-- Modelled from the spec, section 4.5 as quoted by claim C7: tanh pre
clip at preGain, two cascaded second order low pass sections sharing one
coefficient set, a fixed one pole post low pass at 10 kHz with
alpha = exp(-2 pi 10000 / fs) , and a final tanh soft clip. -/
def specDistortionPipeline (st : Distortion) (input : ℝ) : ℝ × Distortion :=
  let clipped := Real.tanh (input * st.preGain)
  let sec1 := biquadProcessSample st.coeffs st.f1 clipped
  let sec2 := biquadProcessSample st.coeffs st.f2 sec1.1
  let alpha := Real.exp (-2 * Real.pi * 10000 / st.fs)
  let post := st.postPrev + (1 - alpha) * (sec2.1 - st.postPrev)
  (Real.tanh post, { st with postPrev := post, f1 := sec1.2, f2 := sec2.2 })

/-- The fully processed, tone filtered wet signal of one pipeline step:
the tone filter output on the flavor blend of the overdrive, distortion
and wavefolder branches (the signal the dry wet blend weights by
sqrt drywet). -/
def filteredSignal (st : AudioProcessorState) (p : Params)
    (oversampledRate inputSample : ℝ) : ℝ :=
  let od := st.overdrive.processSample (inputSample * 0.6) oversampledRate
  let di := st.dist.processSample od.1
  let fo := st.fold.processSample od.1
  (st.toneProcessor.processSample (flavorBlend p.flavor od.1 di.1 fo)).1

/-! ## C float semantics of the cutoff text lambda (for claim C6)

The text to value lambda of the cutoff parameter computes
pow(log(hz / 100) / log(80), 1 / 0.7) on C floats and clamps the result
with jlimit. On IEEE floats, log of a non positive argument and pow of a
negative base with the non integer exponent 1 / 0.7 have no real value
(minus infinity respectively NaN), and jlimit passes a NaN through
because both comparisons against it are false. The embedding returns
none exactly where the C computation has no real finite value. -/

/-- C float log: none models the non finite results (log of zero is
minus infinity, log of a negative number is NaN). -/
def cLog (x : ℝ) : Option ℝ :=
  if 0 < x then some (Real.log x) else none

/-- C float pow at the fixed non integer exponent 1 / 0.7: none models
the NaN a negative base produces. -/
def cPowInvExponent (base : ℝ) : Option ℝ :=
  if 0 ≤ base then some (base ^ ((1 : ℝ) / 0.7)) else none

/-- Embedding of the cutoff text to value lambda (PluginProcessor.cpp
lines 34 to 40) with C float semantics: no clamping happens before the
logarithm; the jlimit runs only on the already computed power, and none
(NaN) passes through it. -/
def cutoffTextToValue (hz : ℝ) : Option ℝ :=
  match cLog (hz / 100) with
  | none => none
  | some l =>
    match cPowInvExponent (l / Real.log ((8000 : ℝ) / 100)) with
    | none => none
    | some n => some (jlimit 0 1 n)

/-! ## Concrete fixture states -/

/-- The processor state right after construction: the constructor
defaults of each stage class. The Distortion member cutoff is read
before first assignment in the source constructor; it is taken as zero
here and is overwritten by prepareToPlay before any claim below looks at
it. -/
def initialState : AudioProcessorState where
  overdrive := ⟨1, 0.5, 0⟩
  dist := ⟨1, 0.2, 0, 44100, 0, makeLowPass 44100 0 0.707, biquadReset, biquadReset⟩
  fold := ⟨0⟩
  toneProcessor := ⟨44100, 0.5, 1000, 0.707, ⟨0, 0, 0, 0, 0⟩, ⟨0, 0, 0, 0, 0⟩,
    biquadReset, biquadReset⟩
  simpleComp := ⟨44100, 0, 0, 0⟩
  sampleRate := 44100
  oversamplerDelay := []
  paramsTree := []
  currentPresetName := "Default"

/-- The default values of the eight parameters as declared in
createParameterLayout. -/
def testParams : Params :=
  ⟨1, 0.5, 1, 0.75, 0.2, 0.5, 1, 0.5⟩

/-- A reachable concrete state: fresh processor, prepared at 44100 Hz
with block size 512, stage parameters pushed from the default parameter
values. -/
def readyState : AudioProcessorState :=
  (initialState.prepareToPlay 44100 512).blockUpdate testParams

/-! ## Mathematical helper lemmas -/

/-- The real tanh is strictly monotone. -/
theorem tanh_lt_tanh_of_lt {x y : ℝ} (h : x < y) : Real.tanh x < Real.tanh y := by
  rw [Real.tanh_eq_sinh_div_cosh, Real.tanh_eq_sinh_div_cosh,
    div_lt_div_iff (Real.cosh_pos x) (Real.cosh_pos y)]
  have hs : Real.sinh (x - y) < 0 := Real.sinh_neg_iff.mpr (by linarith)
  rw [Real.sinh_sub] at hs
  nlinarith [Real.cosh_pos x, Real.cosh_pos y]

/-- The real tanh stays strictly below one. -/
theorem tanh_lt_one_real (x : ℝ) : Real.tanh x < 1 := by
  rw [Real.tanh_eq_sinh_div_cosh, div_lt_one (Real.cosh_pos x)]
  have h := Real.cosh_sub_sinh x
  have hp := Real.exp_pos (-x)
  linarith

/-! ## Claim C7 -/

/-- C7: the Distortion stage processSample computes exactly the spec
pipeline of section 4.5 (tanh pre clip at preGain, two cascaded second
order low pass sections sharing one coefficient set, the fixed one pole
post low pass at 10 kHz with alpha = exp(-2 pi 10000 / fs), final tanh),
the per block update sets preGain to the distortionAmount value clamped
to be non negative, and the shared coefficients come from the
logarithmic mapping of the cutoff control. -/
theorem c7_distortion_stage_pipeline :
    (∀ (st : Distortion) (x : ℝ), st.processSample x = specDistortionPipeline st x) ∧
    (∀ (st : AudioProcessorState) (p : Params),
      (st.blockUpdate p).dist.preGain = max 0 p.distortion) ∧
    (∀ (st : AudioProcessorState) (p : Params),
      (st.blockUpdate p).dist.cutoff = cutoffHzOfNorm (jlimit 0 1 p.cutoff) ∧
      (st.blockUpdate p).dist.coeffs
        = makeLowPass st.dist.fs (cutoffHzOfNorm (jlimit 0 1 p.cutoff)) 0.707) := by
  refine ⟨fun st x => rfl, fun st p => rfl, fun st p => ⟨rfl, rfl⟩⟩

/-! ## Claim C8 -/

/-- C8: at flavor = 0 the blend weight of the wavefolder branch is zero
and the blend is od + dist; at flavor = 1 the distortion branch weight is
zero and the blend is od + fold; accordingly the pipeline output at
flavor = 0 does not depend on the wavefolder depth, and at flavor = 1 it
does not depend on the distortion stage state. -/
theorem c8_flavor_boundaries :
    (∀ od di fo : ℝ, flavorBlend 0 od di fo = od + di) ∧
    (∀ od di fo : ℝ, flavorBlend 1 od di fo = od + fo) ∧
    (∀ (st : AudioProcessorState) (p : Params) (r x d₁ d₂ : ℝ), p.flavor = 0 →
      (({ st with fold := ⟨d₁⟩ } : AudioProcessorState).processOneSample p r x).1
        = (({ st with fold := ⟨d₂⟩ } : AudioProcessorState).processOneSample p r x).1) ∧
    (∀ (st : AudioProcessorState) (p : Params) (r x : ℝ)
        (d₁ d₂ : Distortion), p.flavor = 1 →
      (({ st with dist := d₁ } : AudioProcessorState).processOneSample p r x).1
        = (({ st with dist := d₂ } : AudioProcessorState).processOneSample p r x).1) := by
  refine ⟨fun od di fo => ?_, fun od di fo => ?_,
    fun st p r x d₁ d₂ h => ?_, fun st p r x d₁ d₂ h => ?_⟩
  · simp [flavorBlend]
  · simp [flavorBlend, Real.sin_pi_div_two]
  · simp [AudioProcessorState.processOneSample, flavorBlend, h]
  · simp [AudioProcessorState.processOneSample, flavorBlend, h,
      Real.sin_pi_div_two]

/-- Parameter record with flavor forced to 0 (other values default). -/
def flavorZeroParams : Params := { testParams with flavor := 0 }

/-- Parameter record with flavor forced to 1 (other values default). -/
def flavorOneParams : Params := { testParams with flavor := 1 }

/-- Witness for C8 at concrete inputs. -/
theorem c8_flavor_boundaries_witness :
    flavorBlend 0 2 3 5 = 2 + 3 ∧
    flavorBlend 1 2 3 5 = 2 + 5 ∧
    ((({ readyState with fold := ⟨0⟩ } : AudioProcessorState).processOneSample
        flavorZeroParams 176400 1).1
      = (({ readyState with fold := ⟨1⟩ } : AudioProcessorState).processOneSample
          flavorZeroParams 176400 1).1) ∧
    ((({ readyState with dist := readyState.dist } : AudioProcessorState).processOneSample
        flavorOneParams 176400 1).1
      = (({ readyState with dist := initialState.dist } : AudioProcessorState).processOneSample
          flavorOneParams 176400 1).1) :=
  ⟨c8_flavor_boundaries.1 2 3 5, c8_flavor_boundaries.2.1 2 3 5,
   c8_flavor_boundaries.2.2.1 readyState flavorZeroParams 176400 1 0 1 rfl,
   c8_flavor_boundaries.2.2.2 readyState flavorOneParams 176400 1
     readyState.dist initialState.dist rfl⟩

/-! ## Claim C9 -/

/-- C9: when loading a persisted snapshot fails (missing file,
unparseable XML, or a root tag different from the parameter state type)
the load returns the processor state unchanged: neither the parameter
snapshot nor the preset name is mutated. -/
theorem c9_preset_load_failure_no_mutation :
    (∀ (st : AudioProcessorState) (parsed : Option PresetXml),
      st.loadPresetFromFile false parsed = st) ∧
    (∀ st : AudioProcessorState, st.loadPresetFromFile true none = st) ∧
    (∀ (st : AudioProcessorState) (xml : PresetXml), xml.tag ≠ rootTag →
      st.loadPresetFromFile true (some xml) = st) := by
  refine ⟨fun st parsed => rfl, fun st => rfl, fun st xml h => ?_⟩
  simp [AudioProcessorState.loadPresetFromFile, h]

/-- A parsed document whose root tag is not the parameter state type. -/
def badXml : PresetXml := ⟨"WRONG", none, []⟩

/-- Witness for C9: a concrete failing load leaves the state unchanged. -/
theorem c9_preset_load_failure_witness :
    initialState.loadPresetFromFile true (some badXml) = initialState :=
  c9_preset_load_failure_no_mutation.2.2 initialState badXml (by decide)

/-! ## Claim C5 -/

/-- C5: the logarithmic cutoff mapping spans 100 to 8000 Hz, is strictly
increasing on the whole closed sweep range (in particular on the sweep
0, 0.1, ..., 1.0), and composing it with the inverse mapping of the text
lambda returns the original normalised value exactly, hence within the
1e-4 tolerance, at every point of the unit interval (in particular at
0, 0.25, 0.5, 0.75 and 1). -/
theorem c5_cutoff_log_mapping :
    cutoffHzOfNorm 0 = 100 ∧ cutoffHzOfNorm 1 = 8000 ∧
    (∀ a b : ℝ, 0 ≤ a → a < b → cutoffHzOfNorm a < cutoffHzOfNorm b) ∧
    (∀ x : ℝ, 0 ≤ x → x ≤ 1 →
      |cutoffNormOfHz (cutoffHzOfNorm x) - x| ≤ 1e-4) := by
  have hbase : (1 : ℝ) < (8000 : ℝ) / 100 := by norm_num
  refine ⟨?_, ?_, fun a b ha hab => ?_, fun x h0 h1 => ?_⟩
  · rw [cutoffHzOfNorm, Real.zero_rpow (by norm_num), Real.rpow_zero]
    norm_num
  · rw [cutoffHzOfNorm, Real.one_rpow, Real.rpow_one]
    norm_num
  · have h1 : a ^ (0.7 : ℝ) < b ^ (0.7 : ℝ) :=
      Real.rpow_lt_rpow ha hab (by norm_num)
    have h2 := (Real.rpow_lt_rpow_left_iff hbase).mpr h1
    exact mul_lt_mul_of_pos_left h2 (by norm_num)
  · have hrt : cutoffNormOfHz (cutoffHzOfNorm x) = x := by
      rw [cutoffHzOfNorm, cutoffNormOfHz,
        mul_div_cancel_left₀ _ (by norm_num : (100 : ℝ) ≠ 0),
        Real.log_rpow (by norm_num : (0 : ℝ) < 8000 / 100),
        mul_div_cancel_right₀ _ (ne_of_gt (Real.log_pos hbase))]
      have he : (0.7 : ℝ) * (1 / 0.7) = 1 := by norm_num
      rw [← Real.rpow_mul h0, he, Real.rpow_one, jlimit,
        if_neg (not_lt.mpr h0), if_neg (not_lt.mpr h1)]
    rw [hrt, sub_self, abs_zero]
    norm_num

/-- Witness for C5 at concrete sample points. -/
theorem c5_cutoff_log_mapping_witness :
    cutoffHzOfNorm 0 < cutoffHzOfNorm (1 / 2) ∧
    |cutoffNormOfHz (cutoffHzOfNorm (1 / 4)) - 1 / 4| ≤ 1e-4 :=
  ⟨c5_cutoff_log_mapping.2.2.1 0 (1 / 2) le_rfl (by norm_num),
   c5_cutoff_log_mapping.2.2.2 (1 / 4) (by norm_num) (by norm_num)⟩

/-! ## Claim C1 -/

/-- Closed form of the overdrive smoother output on a fresh (prevY = 0)
overdrive state. -/
theorem overdrive_fresh_prevY (d t x r : ℝ) :
    (Overdrive.processSample ⟨d, t, 0⟩ x r).2.prevY
      = 1 / r / (1 / (2 * Real.pi * (200 + t * 8000)) + 1 / r)
          * Real.tanh (x * (1 + d ^ (2 : ℝ))) := by
  simp [Overdrive.processSample]

/-- The overdrive stage state reached by preparing a fresh processor and
pushing the default parameter values. -/
theorem readyState_overdrive : readyState.overdrive = ⟨1, 1 / 2, 0⟩ := by
  norm_num [readyState, initialState, AudioProcessorState.prepareToPlay,
    AudioProcessorState.blockUpdate, Overdrive.setDrive, Overdrive.setTone,
    testParams, jlimit]

/-- C1 counterexample: on the reachable state readyState, at the
oversampled rate 176400 and input sample 1, the per sample loop of the
code differs from the spec pipeline of claim C1 (whose first stage
consumes the unscaled input sample): the code feeds the overdrive the
input scaled by the fixed 0.6, so the overdrive smoother state already
disagrees after one sample. -/
theorem c1_pipeline_counterexample :
    readyState.processOneSample testParams 176400 1
      ≠ specPipelineUnscaled readyState testParams 176400 1 := by
  intro h
  have h2 : (readyState.processOneSample testParams 176400 1).2.overdrive.prevY
      = (specPipelineUnscaled readyState testParams 176400 1).2.overdrive.prevY := by
    rw [h]
  have e1 : (readyState.processOneSample testParams 176400 1).2.overdrive
      = (readyState.overdrive.processSample (1 * 0.6) 176400).2 := rfl
  have e2 : (specPipelineUnscaled readyState testParams 176400 1).2.overdrive
      = (readyState.overdrive.processSample 1 176400).2 := rfl
  rw [e1, e2, readyState_overdrive, overdrive_fresh_prevY,
    overdrive_fresh_prevY] at h2
  have hα : (0 : ℝ)
      < 1 / 176400 / (1 / (2 * Real.pi * (200 + 1 / 2 * 8000)) + 1 / 176400) := by
    positivity
  have h3 := mul_left_cancel₀ (ne_of_gt hα) h2
  have hlt : Real.tanh (1 * 0.6 * (1 + (1 : ℝ) ^ (2 : ℝ)))
      < Real.tanh (1 * (1 + (1 : ℝ) ^ (2 : ℝ))) := by
    apply tanh_lt_tanh_of_lt
    rw [Real.one_rpow]
    norm_num
  exact ne_of_lt hlt h3

/-- C1 amended: the per sample pipeline computes the spec equation list
of section 4.7 with one change: the first stage consumes the input
sample scaled by the fixed pre gain 0.6
(od = Overdrive.process(inputSample times 0.6)); the dry branch of the
dry wet blend does use the unscaled input sample, as the claim states. -/
theorem c1_pipeline_amended :
    ∀ (st : AudioProcessorState) (p : Params) (r x : ℝ),
      st.processOneSample p r x = specPipelineScaled st p r x :=
  fun _ _ _ _ => rfl

/-! ## Claim C2 -/

/-- Parameter record carrying a drive value above the declared 0 to 10
range. -/
def overRangeParams : Params := { testParams with drive := 11 }

/-- C2 counterexample: a drive of 11 read from the parameter source is
stored in the Overdrive stage and used by the ToneProcessor pivot
computation without being clamped to the declared 0 to 10 range; and a
foldDepth of -0.5 makes the setter compute pow of a negative base with
the non integer exponent 1.5, a NaN (none) that jlimit passes through to
the Wavefolder unclamped. -/
theorem c2_clamping_counterexample :
    ((initialState.prepareToPlay 44100 512).blockUpdate overRangeParams).overdrive.drive
        = 11 ∧
    ((initialState.prepareToPlay 44100 512).blockUpdate
        overRangeParams).toneProcessor.modulatedPivot = 1000 + 11 * 100 ∧
    jlimit 0 10 (11 : ℝ) = 10 ∧ (11 : ℝ) ≠ 10 ∧
    foldDepthStored (-(1 / 2)) = none := by
  refine ⟨rfl, rfl, ?_, by norm_num, ?_⟩
  · norm_num [jlimit]
  · norm_num [foldDepthStored, cPowThreeHalves]

/-- C2 amended: before any stage computation, tone and cutoff are
clamped to the unit interval by the stage setters and distortionAmount
is clamped below at zero; foldDepth is clamped to the unit interval only
for non negative control values, while a negative foldDepth makes the
setter compute a NaN that jlimit passes through to the Wavefolder
unclamped; drive is stored and used by the stages exactly as read,
without clamping, and flavor, outputGain and dryWet appear raw and
unclamped in the per sample output computation. -/
theorem c2_clamping_amended :
    ∀ (st : AudioProcessorState) (p : Params) (r x : ℝ),
      (st.blockUpdate p).overdrive.tone = jlimit 0 1 p.tone ∧
      (st.blockUpdate p).toneProcessor.balance = jlimit 0 1 p.tone ∧
      (st.blockUpdate p).dist.sliderValue = jlimit 0 1 p.cutoff ∧
      (0 ≤ p.fold →
        (st.blockUpdate p).fold.depth = jlimit 0 1 (p.fold ^ (1.5 : ℝ))) ∧
      (p.fold < 0 → foldDepthStored p.fold = none) ∧
      (st.blockUpdate p).dist.preGain = max 0 p.distortion ∧
      (st.blockUpdate p).overdrive.drive = p.drive ∧
      (st.blockUpdate p).toneProcessor.modulatedPivot = 1000 + p.drive * 100 ∧
      (st.blockUpdate p).toneProcessor.modulatedQ = 0.707 + p.drive * 0.05 ∧
      (st.processOneSample p r x).1
        = Real.tanh ((x * (1 - Real.sqrt p.drywet)
            + filteredSignal st p r x * Real.sqrt p.drywet) * p.output) ∧
      filteredSignal st p r x
        = (st.toneProcessor.processSample (flavorBlend p.flavor
            (st.overdrive.processSample (x * 0.6) r).1
            (st.dist.processSample (st.overdrive.processSample (x * 0.6) r).1).1
            (st.fold.processSample (st.overdrive.processSample (x * 0.6) r).1))).1 := by
  intro st p r x
  refine ⟨rfl, rfl, rfl, fun h => ?_, fun h => ?_, rfl, rfl, rfl, rfl, rfl, rfl⟩
  · simp [AudioProcessorState.blockUpdate, Wavefolder.setDepth, foldDepthStored,
      cPowThreeHalves, h]
  · simp [foldDepthStored, cPowThreeHalves, not_le.mpr h]

/-- Parameter record carrying a negative out of range foldDepth. -/
def negFoldParams : Params := { testParams with fold := -(1 / 2) }

/-- Witness for C2 (amended) at concrete parameter records: the defined
branch of the foldDepth clamp at the default fold value 0.2, and the NaN
branch at the out of range value -0.5. -/
theorem c2_clamping_amended_witness :
    (initialState.blockUpdate testParams).fold.depth
        = jlimit 0 1 (testParams.fold ^ (1.5 : ℝ)) ∧
    foldDepthStored negFoldParams.fold = none :=
  ⟨(c2_clamping_amended initialState testParams 176400 1).2.2.2.1
      (by norm_num [testParams]),
   (c2_clamping_amended initialState negFoldParams 176400 1).2.2.2.2.1
      (by norm_num [negFoldParams, testParams])⟩

/-! ## Claim C3 -/

/-- Parameter record with dryWet forced to 0 (other values default, in
particular outputGain = 1). -/
def dryParams : Params := { testParams with drywet := 0 }

/-- Parameter record with dryWet forced to 1. -/
def wetParams : Params := { testParams with drywet := 1 }

/-- C3 counterexample: at dryWet = 0, outputGain = 1 and input sample 1
the pipeline outputs tanh 1, not the unprocessed input sample 1: the
final tanh soft clip is applied to the dry path as well, so the output
is not equal to the input. -/
theorem c3_drywet_counterexample :
    (readyState.processOneSample dryParams 176400 1).1 ≠ 1 := by
  have e : (readyState.processOneSample dryParams 176400 1).1
      = Real.tanh ((1 * (1 - Real.sqrt 0)
          + filteredSignal readyState dryParams 176400 1 * Real.sqrt 0) * 1) := rfl
  rw [e]
  simp only [Real.sqrt_zero, mul_zero, sub_zero, mul_one, one_mul, add_zero]
  exact ne_of_lt (tanh_lt_one_real 1)

/-- C3 amended: dryWet = 0 makes the per sample output
tanh(outputGain times inputSample): the processed branch gets weight
zero, but the output gain and the final tanh still act on the dry
signal, so it is not the unprocessed input sample; dryWet = 1 makes the
output tanh(outputGain times filtered) where filtered is the fully
processed, tone filtered signal. -/
theorem c3_drywet_amended :
    ∀ (st : AudioProcessorState) (p : Params) (r x : ℝ),
      (p.drywet = 0 →
        (st.processOneSample p r x).1 = Real.tanh (x * p.output)) ∧
      (p.drywet = 1 →
        (st.processOneSample p r x).1
          = Real.tanh (filteredSignal st p r x * p.output)) := by
  intro st p r x
  have e : (st.processOneSample p r x).1
      = Real.tanh ((x * (1 - Real.sqrt p.drywet)
          + filteredSignal st p r x * Real.sqrt p.drywet) * p.output) := rfl
  constructor
  · intro h
    rw [e, h]
    simp
  · intro h
    rw [e, h]
    simp

/-- Witness for C3 (amended) at concrete parameter records. -/
theorem c3_drywet_amended_witness :
    (readyState.processOneSample dryParams 176400 1).1
        = Real.tanh (1 * dryParams.output) ∧
    (readyState.processOneSample wetParams 176400 1).1
        = Real.tanh (filteredSignal readyState wetParams 176400 1 * wetParams.output) :=
  ⟨(c3_drywet_amended readyState dryParams 176400 1).1 rfl,
   (c3_drywet_amended readyState wetParams 176400 1).2 rfl⟩

/-! ## Claim C6 -/

/-- C6: the inverse mapping lambda does not clamp before the logarithm;
at the typed value 50 Hz the C computation takes pow of a negative base
with the non integer exponent 1 / 0.7 and yields NaN, which the final
jlimit passes through. The embedding returns none exactly where the C
float result is NaN or infinite, so none here is the NaN the claim says
can never be produced. -/
theorem c6_inverse_mapping_nan_at_50 : cutoffTextToValue 50 = none := by
  have hpos : (0 : ℝ) < 50 / 100 := by norm_num
  have hneg : Real.log (50 / 100) / Real.log ((8000 : ℝ) / 100) < 0 :=
    div_neg_of_neg_of_pos (Real.log_neg (by norm_num) (by norm_num))
      (Real.log_pos (by norm_num))
  simp [cutoffTextToValue, cLog, cPowInvExponent, hpos, not_le.mpr hneg]

/-! ## Claim C4 -/

/-- A processor state carrying leftover signal history: the overdrive
smoother holds 1 and the distortion post low pass holds 2. -/
def dirtyState : AudioProcessorState :=
  { initialState with
    overdrive := ⟨1, 0.5, 1⟩
    dist := { initialState.dist with postPrev := 2 } }

/-- C4 counterexample: prepareToPlay does not reset all internal state:
on dirtyState it leaves the overdrive one pole smoother accumulator at 1
and the distortion post low pass delay element at 2 instead of resetting
them to 0. -/
theorem c4_prepare_counterexample :
    (dirtyState.prepareToPlay 44100 512).overdrive.prevY = 1 ∧
    (dirtyState.prepareToPlay 44100 512).dist.postPrev = 2 ∧
    (1 : ℝ) ≠ 0 ∧ (2 : ℝ) ≠ 0 :=
  ⟨rfl, rfl, by norm_num, by norm_num⟩

/-- C4 amended: prepareToPlay resets the tone filter delay elements, the
two distortion filter sections, the compressor envelope and the
oversampler delay lines, but leaves the overdrive smoother accumulator
and the distortion post low pass delay element untouched; it is
idempotent as a state transformer, so calling it twice with identical
sample rate and block size leaves exactly the state of a single call and
the same input sequence then produces the same output sequence after
either call. -/
theorem c4_prepare_amended :
    ∀ (st : AudioProcessorState) (fs : ℝ) (n : ℕ),
      (st.prepareToPlay fs n).toneProcessor.lowSt = biquadReset ∧
      (st.prepareToPlay fs n).toneProcessor.highSt = biquadReset ∧
      (st.prepareToPlay fs n).dist.f1 = biquadReset ∧
      (st.prepareToPlay fs n).dist.f2 = biquadReset ∧
      (st.prepareToPlay fs n).simpleComp.envelope = 0 ∧
      (st.prepareToPlay fs n).oversamplerDelay = [] ∧
      (st.prepareToPlay fs n).overdrive.prevY = st.overdrive.prevY ∧
      (st.prepareToPlay fs n).dist.postPrev = st.dist.postPrev ∧
      (st.prepareToPlay fs n).prepareToPlay fs n = st.prepareToPlay fs n := by
  intro st fs n
  refine ⟨rfl, rfl, rfl, rfl, rfl, rfl, rfl, rfl, ?_⟩
  simp [AudioProcessorState.prepareToPlay, ToneProcessor.prepare,
    ToneProcessor.updateCoefficients, Distortion.prepare, Distortion.updateFilter,
    Distortion.setPreGain, Distortion.setCutoffSliderValue, Overdrive.setDrive,
    Overdrive.setTone, Wavefolder.setDepth, SimpleCompressor.prepare]

/-! ## Claim C10 -/

/-- One pipeline step neither reads nor writes the compressor member:
replacing it commutes with processing a sample. -/
theorem processOneSample_comp_comm (st : AudioProcessorState) (p : Params)
    (r x : ℝ) (e : SimpleCompressor) :
    ({ st with simpleComp := e } : AudioProcessorState).processOneSample p r x
      = ((st.processOneSample p r x).1,
         { (st.processOneSample p r x).2 with simpleComp := e }) := rfl

/-- The per sample loop neither reads nor writes the compressor member. -/
theorem runSamples_comp_comm (p : Params) (r : ℝ) (e : SimpleCompressor)
    (xs : List ℝ) :
    ∀ st : AudioProcessorState,
      AudioProcessorState.runSamples p r ({ st with simpleComp := e }) xs
        = ((AudioProcessorState.runSamples p r st xs).1,
           { (AudioProcessorState.runSamples p r st xs).2 with simpleComp := e }) := by
  induction xs with
  | nil => intro st; rfl
  | cons x xs ih =>
    intro st
    simp only [AudioProcessorState.runSamples, processOneSample_comp_comm, ih]

/-- C10: processBlock never invokes the compressor: the compressor state
(envelope included) after a block equals the state before it, and the
audio output of the block is the same for any two values of the
compressor state; prepareToPlay is the only place the compressor is
touched, where it is prepared. -/
theorem c10_compressor_not_invoked :
    ∀ (st : AudioProcessorState) (p : Params) (input : List ℝ),
      (st.processBlock p input).2.simpleComp = st.simpleComp ∧
      (∀ e₁ e₂ : SimpleCompressor,
        (({ st with simpleComp := e₁ } : AudioProcessorState).processBlock p input).1
          = (({ st with simpleComp := e₂ } : AudioProcessorState).processBlock p input).1) ∧
      (∀ (fs : ℝ) (n : ℕ),
        (st.prepareToPlay fs n).simpleComp = st.simpleComp.prepare fs) := by
  intro st p input
  have hblock : ∀ (s : AudioProcessorState) (e : SimpleCompressor),
      ({ s with simpleComp := e } : AudioProcessorState).processBlock p input
        = ((s.processBlock p input).1,
           { (s.processBlock p input).2 with simpleComp := e }) := by
    intro s e
    show AudioProcessorState.runSamples p _ _ input = _
    rw [show ({ s with simpleComp := e } : AudioProcessorState).blockUpdate p
          = { s.blockUpdate p with simpleComp := e } from rfl]
    exact runSamples_comp_comm p _ e input (s.blockUpdate p)
  refine ⟨?_, fun e₁ e₂ => ?_, fun fs n => rfl⟩
  · have h := hblock st st.simpleComp
    have hself : ({ st with simpleComp := st.simpleComp } : AudioProcessorState)
        = st := rfl
    rw [hself] at h
    exact congrArg (fun s => s.2.simpleComp) h
  · rw [hblock st e₁, hblock st e₂]

end DREKAVAC

